import Mathlib

/-!
Verification development for the s3b_whatsapp_bot webhook handlers.

The Python sources under `src/aws_lambda_functions/` are modelled as executable
Lean definitions: JSON values are a small inductive type `J`, Python runtime
errors (KeyError, TypeError, ...) are an error type `PyErr`, the relational
store behind the identity resolver is an explicit `Db` state, and every
external call (PostgreSQL statements, GraphQL mutations, provider/file-storage
HTTP requests) is recorded as an event in a trace `List Ev` while the responses
of the external collaborators are supplied by an environment record.
-/

namespace S3bWhatsappBot

/-- A parsed JSON value, as produced by `json.loads`. -/
inductive J where
  | null
  | str (s : String)
  | num (n : Int)
  | bool (b : Bool)
  | obj (fields : List (String × J))
  | arr (items : List J)

/-- Python runtime errors raised (or wrapped and re-raised) by the handlers. -/
inductive PyErr where
  | jsonDecodeError
  | keyError (k : String)
  | indexError
  | typeError
  | attributeError
  | argumentNone (a : String)
  | argumentNotUUID (a : String)
  | argumentUnknown (a : String)
  | unhashableType
deriving DecidableEq, Repr

mutual

/-- Python `==` on JSON values (used for the handlers' string comparisons). -/
def jEq : J → J → Bool
  | J.null, J.null => true
  | J.str a, J.str b => a == b
  | J.num a, J.num b => a == b
  | J.bool a, J.bool b => a == b
  | J.obj a, J.obj b => jEqFields a b
  | J.arr a, J.arr b => jEqList a b
  | _, _ => false

def jEqList : List J → List J → Bool
  | [], [] => true
  | a :: as, b :: bs => jEq a b && jEqList as bs
  | _, _ => false

def jEqFields : List (String × J) → List (String × J) → Bool
  | [], [] => true
  | (k, v) :: as, (k', v') :: bs => k == k' && jEq v v' && jEqFields as bs
  | _, _ => false

end

/-- First-match lookup of a key in a JSON object's field list. -/
def lookupField (k : String) : List (String × J) → Option J
  | [] => none
  | (k', v) :: rest => if k' = k then some v else lookupField k rest

/-- Python `d.get(k, None)` followed by the callers' `is not None` tests: a
missing key and an explicit JSON `null` both come out as Python `None`.
The callers below only use this once `d` is known to be a dict. -/
def pyGet (m : J) (k : String) : Option J :=
  match m with
  | J.obj fs =>
    match lookupField k fs with
    | some J.null => none
    | some v => some v
    | none => none
  | _ => none

/-- Python `o.get(k, None)` on a value that may not be a dict: non-dicts raise
`AttributeError`. -/
def pyGetAttr (o : J) (k : String) : Except PyErr (Option J) :=
  match o with
  | J.obj _ => .ok (pyGet o k)
  | _ => .error .attributeError

/-- Python subscript `o[k]`: `KeyError` on a missing key, and a `TypeError`-style
failure when `o` is not a dict. -/
def pyIndex (o : J) (k : String) : Except PyErr J :=
  match o with
  | J.obj fs =>
    match lookupField k fs with
    | some v => .ok v
    | none => .error (.keyError k)
  | _ => .error .typeError

/-- Python subscript `o[0]` on the webhook's `contacts`/`messages` arrays:
`IndexError` on an empty list, an error on a non-list. -/
def pyIndex0 (o : J) : Except PyErr J :=
  match o with
  | J.arr (x :: _) => .ok x
  | J.arr [] => .error .indexError
  | _ => .error .typeError

/-- Python `"{0}".format(x)` on an optional string, as used for the upload key:
`None` formats as the literal string `"None"`. -/
def pyStrOfOption : Option String → String
  | some s => s
  | none => "None"

/-- A Python `None` stored as a JSON object value (serialised as `null`). -/
def jOfOpt : Option J → J
  | some v => v
  | none => J.null

/-- Split a character list on a separator, Python `str.split(sep)` style. -/
def splitChar (sep : Char) : List Char → List (List Char)
  | [] => [[]]
  | c :: rest =>
    let r := splitChar sep rest
    if c = sep then [] :: r
    else
      match r with
      | [] => [[c]]
      | a :: as => (c :: a) :: as

/-- Python `s.rsplit(sep, 1)[1]`: the part after the last separator;
`IndexError` when the separator does not occur. -/
def pyRsplitLast (s : String) (sep : Char) : Except PyErr String :=
  let parts := splitChar sep s.toList
  if parts.length ≤ 1 then .error .indexError
  else .ok (String.mk (parts.getLastD []))

/-- Delete every occurrence of a (non-empty) pattern from a character list,
as Python `s.replace(pat, "")` does (fuel-based structural recursion; the
fuel is the list length, which the skipping recursion never exhausts). -/
def removeSubFuel (pat : List Char) : Nat → List Char → List Char
  | _, [] => []
  | 0, l => l
  | fuel + 1, c :: rest =>
    if pat ≠ [] ∧ pat.isPrefixOf (c :: rest) then
      removeSubFuel pat fuel ((c :: rest).drop pat.length)
    else c :: removeSubFuel pat fuel rest

def removeSub (pat l : List Char) : List Char :=
  removeSubFuel pat l.length l

/-- Python `str.strip("\x7b\x7d")`: drop leading and trailing brace characters. -/
def stripBraceChars (l : List Char) : List Char :=
  ((l.dropWhile (fun c => c = '{' || c = '}')).reverse.dropWhile
    (fun c => c = '{' || c = '}')).reverse

def isHexDigitChar (c : Char) : Bool :=
  c.isDigit || (97 ≤ c.toNat && c.toNat ≤ 102) || (65 ≤ c.toNat && c.toNat ≤ 70)

/-- Python `uuid.UUID(hex=s)` normalisation: delete `urn:` and `uuid:`
occurrences, strip surrounding braces, delete hyphens, then require exactly 32
hexadecimal digits. -/
def pyUUIDValid (s : String) : Bool :=
  let cs := removeSub "uuid:".toList (removeSub "urn:".toList s.toList)
  let cs := stripBraceChars cs
  let cs := cs.filter (· ≠ '-')
  cs.length = 32 && cs.all isHexDigitChar

/-! ## The relational store behind the identity resolver

`send_message_from_whatsapp` reads and writes the `identified_users` and
`users` tables; generated ids are modelled by per-table counters. -/

structure IdentifiedUserRow where
  identified_user_id : Nat
  identified_user_primary_phone_number : String
  metadata : J
  whatsapp_profile : J
  whatsapp_username : String

structure UserRow where
  user_id : Nat
  identified_user_id : Option Nat
  internal_user_id : Option Nat
  unidentified_user_id : Option Nat
deriving DecidableEq, Repr

structure Db where
  identified_users : List IdentifiedUserRow
  users : List UserRow
  next_identified_user_id : Nat
  next_user_id : Nat

/-- Generated ids never collide with ids already present in the tables. -/
def Db.WF (db : Db) : Prop :=
  (∀ r ∈ db.identified_users, r.identified_user_id < db.next_identified_user_id) ∧
  (∀ u ∈ db.users, ∀ i, u.identified_user_id = some i → i < db.next_identified_user_id)

/-- `get_identified_user_data`: select `users.user_id` from `identified_users`
left join `users` on the identified-user id, where `whatsapp_username`
matches and `users.internal_user_id`/`users.unidentified_user_id` are null,
limit 1; a missing row comes back as `None`. -/
def get_identified_user_data (db : Db) (whatsapp_username : String) : Option Nat :=
  db.identified_users.findSome? fun iu =>
    if iu.whatsapp_username = whatsapp_username then
      db.users.findSome? fun u =>
        if u.identified_user_id = some iu.identified_user_id ∧
            u.internal_user_id = none ∧ u.unidentified_user_id = none then
          some u.user_id
        else none
    else none

structure IdentifiedUserArgs where
  identified_user_primary_phone_number : String
  metadata : J
  whatsapp_profile : J
  whatsapp_username : String

/-- `create_identified_user`: insert into `identified_users` with
`ON CONFLICT ON CONSTRAINT identified_users_whatsapp_username_key DO NOTHING
RETURNING identified_user_id`, then subscript `cursor.fetchone()`
unconditionally — so when the conflict fires the insert returns no row and the
subscript of `None` raises; otherwise a `users` row is inserted and its
`user_id` is returned.  The returned `Db` reflects how far execution got. -/
def create_identified_user (db : Db) (a : IdentifiedUserArgs) : Db × Except PyErr Nat :=
  if db.identified_users.any (fun r => r.whatsapp_username == a.whatsapp_username) then
    (db, .error .typeError)
  else
    let iid := db.next_identified_user_id
    let db1 : Db := { db with
      identified_users := db.identified_users ++
        [⟨iid, a.identified_user_primary_phone_number, a.metadata,
          a.whatsapp_profile, a.whatsapp_username⟩],
      next_identified_user_id := iid + 1 }
    let uid := db1.next_user_id
    let db2 : Db := { db1 with
      users := db1.users ++ [⟨uid, some iid, none, none⟩],
      next_user_id := uid + 1 }
    (db2, .ok uid)

/-! ## External collaborators and the call trace

Responses of the database reads, the GraphQL backend, the messaging provider
and the file-storage service are supplied by environment records; every
outgoing call is recorded as an event.  The environments model responsive
collaborators returning well-formed data (the narrow request/response
contracts); Python-level failures are still modelled exactly. -/

/-- The row returned by the inbound handler's `get_aggregated_data`
(left joins, so every column may be SQL null). -/
structure AggRow where
  chat_room_id : Option String
  channel_id : Option String
  chat_room_status : Option String
  client_id : Option Nat
deriving DecidableEq, Repr

/-- The file-storage service's presign response:
`data.url` is the upload target, the top-level `url` the durable file URL,
and `data.fields` the form fields echoed into the upload POST. -/
structure PresignResponse where
  upload_url : String
  original_url : String
  fields_key : String
  x_amz_algorithm : String
  x_amz_credential : String
  x_amz_date : String
  policy : String
  x_amz_signature : String
deriving DecidableEq, Repr

/-- Validated operator-send input, as assembled by
`send_message_to_whatsapp.check_input_arguments`. -/
structure InputArguments where
  chat_room_id : String
  message_author_id : String
  message_channel_id : String
  message_text : Option J
  message_content : Option J
  quoted_message_id : Option String
  quoted_message_author_id : Option String
  quoted_message_channel_id : Option String
  quoted_message_text : Option J
  quoted_message_content : Option J
  local_message_id : Option J

/-- Input assembled by `send_template_to_whatsapp.check_input_arguments`
(values are taken with `.get`, so they may be absent). -/
structure TemplateArguments where
  chat_room_id : Option J
  message_author_id : Option J
  message_channel_id : Option J
  message_text : Option String

/-- One outgoing call of a handler: SQL statements, provider HTTP requests,
file-storage requests and GraphQL mutations, with the arguments the claims
talk about.  Message previews and contents are carried structurally (the code
passes their `json.dumps` serialisations). -/
inductive Ev where
  | sqlGetAggregatedData (whatsapp_chat_id : String)
  | sqlGetWhatsappBotToken (business_account : String)
  | sqlGetIdentifiedUserData (whatsapp_username : String)
  | sqlCreateIdentifiedUser (whatsapp_username : String)
  | sqlGetChatRoomData (chat_room_id : Option J)
  | httpMediaFetch (file_id : String)
  | httpPresignRequest (key : String)
  | httpUploadPost (url : String)
  | providerSendText (token chat_id text : String)
  | providerSendMessageText (token chat_id : String) (text : Option J)
  | providerSendTemplate
  | gqlCreateChatRoom (client_id : Option Nat) (preview_text : Option J)
      (preview_content : Option (List J)) (whatsapp_chat_id : String)
  | gqlActivateClosedChatRoom (chat_room_id : Option String) (client_id : Option Nat)
      (preview_text : Option J) (preview_content : Option (List J))
  | gqlCreateChatRoomMessage (chat_room_id : Option String) (message_author_id : Option Nat)
      (message_channel_id : Option String) (message_text : Option J)
      (message_content : Option (List J))
  | gqlUpdateMessageData (chat_room_id : Option String) (messages_ids : List String)
  | gqlCreateChatRoomMessageOperator (args : InputArguments)
  | gqlCreateChatRoomMessageTemplate (chat_room_id message_author_id message_channel_id : Option J)
      (message_text : Option String)

/-- Calls that hit the GraphQL backend (the backend mutations). -/
def Ev.isGqlCall : Ev → Bool
  | .gqlCreateChatRoom .. => true
  | .gqlActivateClosedChatRoom .. => true
  | .gqlCreateChatRoomMessage .. => true
  | .gqlUpdateMessageData .. => true
  | .gqlCreateChatRoomMessageOperator .. => true
  | .gqlCreateChatRoomMessageTemplate .. => true
  | _ => false

/-- External responses consumed by `send_message_from_whatsapp`. -/
structure Env where
  /-- row of `get_aggregated_data`, keyed by `business_account:wa_id` -/
  aggRow : Option AggRow
  /-- row of `get_whatsapp_bot_token` (the code subscripts the fetched row,
  so a missing row raises) -/
  botToken : Option String
  /-- `GET {api}/v1/media/{id}`: `response.content` -/
  mediaContent : String → String
  /-- `GET {api}/v1/media/{id}`: `response.headers["Content-Type"]` -/
  mediaContentType : String → String
  /-- `GET {storage}/get_presigned_url_to_upload_file?key=...` -/
  presign : String → PresignResponse
  /-- PIL `Image.open(...).size` of the fetched binary -/
  imageDims : String → Nat × Nat
  /-- `createChatRoom` response: `data.createChatRoom.chatRoomId` -/
  chatRoomIdResp : String
  /-- `createChatRoom` response: `data.createChatRoom.channelId` -/
  channelIdResp : String
  /-- `createChatRoomMessage` response: `data.createChatRoomMessage.messageId` -/
  messageIdResp : String

namespace SendMessageFromWhatsapp

/-- `get_the_binary_data`: media fetch returning `(response.content,
response.headers["Content-Type"])`. -/
def get_the_binary_data (env : Env) (whatsapp_bot_token : String) (file_id : String) :
    (String × String) × List Ev :=
  let _ := whatsapp_bot_token
  ((env.mediaContent file_id, env.mediaContentType file_id), [Ev.httpMediaFetch file_id])

/-- `upload_file_to_s3_bucket`: presign request keyed by
`chat_rooms/{chat_room_id}/{file_name}`, then the form POST of the binary to
the presigned target; returns the presign response's top-level `url`. -/
def upload_file_to_s3_bucket (env : Env) (binary_data : String) (chat_room_id : Option String)
    (file_name : String) : String × List Ev :=
  let _ := binary_data
  let key := "chat_rooms/" ++ pyStrOfOption chat_room_id ++ "/" ++ file_name
  let resp := env.presign key
  (resp.original_url, [Ev.httpPresignRequest key, Ev.httpUploadPost resp.upload_url])

/-- `form_message_format` (lines 887-1026): compute the message text from the
`text`/`image`/`video` captions, then the content list from whichever payload
object is present, fetching and re-uploading binaries for the media kinds.
Media ids and document filenames are strings in the webhook schema; a
non-string there is modelled as a type error. -/
def form_message_format (env : Env) (message : J) (chat_room_id : Option String)
    (whatsapp_bot_token : String) : Except PyErr (Option J × Option (List J)) × List Ev :=
  let text := pyGet message "text"
  let location := pyGet message "location"
  let image := pyGet message "image"
  let video := pyGet message "video"
  let document := pyGet message "document"
  let voice := pyGet message "voice"
  let mtE : Except PyErr (Option J) :=
    match text with
    | some t => pyGetAttr t "body"
    | none =>
      match image with
      | some i => pyGetAttr i "caption"
      | none =>
        match video with
        | some v => pyGetAttr v "caption"
        | none => .ok none
  match mtE with
  | .error e => (.error e, [])
  | .ok message_text =>
    match location with
    | some l =>
      match l with
      | J.obj _ =>
        let item := J.obj [("category", J.str "location"),
          ("details", J.obj [("latitude", jOfOpt (pyGet l "latitude")),
                             ("longitude", jOfOpt (pyGet l "longitude"))])]
        (.ok (message_text, some [item]), [])
      | _ => (.error .attributeError, [])
    | none =>
      match image with
      | some i =>
        match pyIndex i "id" with
        | .error e => (.error e, [])
        | .ok (J.str fid) =>
          let fetched := get_the_binary_data env whatsapp_bot_token fid
          let file_size := fetched.1.2
          let dims := env.imageDims fetched.1.1
          match pyIndex i "mime_type" with
          | .error e => (.error e, fetched.2)
          | .ok mime =>
            let up := upload_file_to_s3_bucket env fetched.1.1 chat_room_id (fid ++ ".jpeg")
            let item := J.obj [("category", J.str "image"),
              ("fileName", J.str (fid ++ ".jpeg")),
              ("fileExtension", J.str ".jpeg"),
              ("fileSize", J.str file_size),
              ("mimeType", mime),
              ("url", J.str up.1),
              ("dimensions", J.obj [("width", J.num dims.1), ("height", J.num dims.2)])]
            (.ok (message_text, some [item]), fetched.2 ++ up.2)
        | .ok _ => (.error .typeError, [])
      | none =>
        match video with
        | some v =>
          match pyIndex v "id" with
          | .error e => (.error e, [])
          | .ok (J.str fid) =>
            let fetched := get_the_binary_data env whatsapp_bot_token fid
            let file_size := fetched.1.2
            match pyIndex v "mime_type" with
            | .error e => (.error e, fetched.2)
            | .ok mime =>
              let up := upload_file_to_s3_bucket env fetched.1.1 chat_room_id (fid ++ ".mp4")
              let item := J.obj [("category", J.str "document"),
                ("fileName", J.str (fid ++ ".mp4")),
                ("fileExtension", J.str ".mp4"),
                ("fileSize", J.str file_size),
                ("mimeType", mime),
                ("url", J.str up.1)]
              (.ok (message_text, some [item]), fetched.2 ++ up.2)
          | .ok _ => (.error .typeError, [])
        | none =>
          match document with
          | some d =>
            match pyIndex d "id" with
            | .error e => (.error e, [])
            | .ok (J.str fid) =>
              let fetched := get_the_binary_data env whatsapp_bot_token fid
              let file_size := fetched.1.2
              match pyIndex d "filename" with
              | .error e => (.error e, fetched.2)
              | .ok (J.str fname) =>
                match pyRsplitLast fname '.' with
                | .error e => (.error e, fetched.2)
                | .ok ext =>
                  match pyIndex d "mime_type" with
                  | .error e => (.error e, fetched.2)
                  | .ok mime =>
                    let up := upload_file_to_s3_bucket env fetched.1.1 chat_room_id fname
                    let item := J.obj [("category", J.str "document"),
                      ("fileName", J.str fname),
                      ("fileExtension", J.str (("." ++ ext).toLower)),
                      ("fileSize", J.str file_size),
                      ("mimeType", mime),
                      ("url", J.str up.1)]
                    (.ok (message_text, some [item]), fetched.2 ++ up.2)
              | .ok _ => (.error .typeError, fetched.2)
            | .ok _ => (.error .typeError, [])
          | none =>
            match voice with
            | some vo =>
              match pyIndex vo "id" with
              | .error e => (.error e, [])
              | .ok (J.str fid) =>
                let fetched := get_the_binary_data env whatsapp_bot_token fid
                let file_size := fetched.1.2
                match pyIndex vo "mime_type" with
                | .error e => (.error e, fetched.2)
                | .ok mime =>
                  let up := upload_file_to_s3_bucket env fetched.1.1 chat_room_id (fid ++ ".ogg")
                  let item := J.obj [("category", J.str "audio"),
                    ("fileName", J.str (fid ++ ".ogg")),
                    ("fileExtension", J.str ".ogg"),
                    ("fileSize", J.str file_size),
                    ("mimeType", mime),
                    ("url", J.str up.1)]
                  (.ok (message_text, some [item]), fetched.2 ++ up.2)
              | .ok _ => (.error .typeError, [])
            | none => (.ok (message_text, none), [])

def available_types : List String :=
  ["text", "location", "image", "video", "document", "voice"]

/-- The notice sent when a chat with no conversation opens with a non-text
payload (the literal is double-encoded in the source and is reproduced
byte-for-byte). -/
def first_text_notice : String :=
  "ü§ñüí¨\n–û–ø–∏—à–∏—Ç–µ –ø–æ–∂–∞–ª—É–π—Å—Ç–∞ —Å–ø–µ—Ä–≤–∞ –≤–∞—à—É –ø—Ä–æ–±–ª–µ–º—É –≤ —Ç–µ–∫—Å—Ç–æ–≤–æ–º —Ñ–æ—Ä–º–∞—Ç–µ."

/-- The notice sent for unsupported payload types (same encoding caveat). -/
def unsupported_type_notice : String :=
  "ü§ñüí¨\n–û–±—Ä–∞–±–æ—Ç–∫–∞ –¥–∞–Ω–Ω–æ–≥–æ —Ñ–æ—Ä–º–∞—Ç–∞ —Å–æ–æ–±—â–µ–Ω–∏—è –Ω–µ–¥–æ—Å—Ç—É–ø–Ω–∞."

/-- Line 1042: `all(key in ["messages", "contacts"] for key in body.keys())`. -/
def checkKeys (keys : List String) : Bool :=
  keys.all fun k => k == "messages" || k == "contacts"

/-- The tail of the handler after conversation existence is settled: the
`createChatRoomMessage` mutation followed by `updateMessageData` on the
created message id. -/
def finishMessage (env : Env) (db : Db) (chat_room_id : Option String)
    (client_id : Option Nat) (channel_id : Option String) (message_text : Option J)
    (message_content : Option (List J)) (evs : List Ev) :
    Except PyErr (Nat × Db) × List Ev :=
  let message_id := env.messageIdResp
  (.ok (200, db),
    evs ++ [Ev.gqlCreateChatRoomMessage chat_room_id client_id channel_id
              message_text message_content,
            Ev.gqlUpdateMessageData chat_room_id [message_id]])

/-- `lambda_handler` of `send_message_from_whatsapp` (lines 1029-1204).
`body` is the `json.loads` result (`none` when parsing failed); `rawPath`
supplies the business account as its last path segment.  Returns the status
code and the database state, plus the trace of outgoing calls. -/
def lambda_handler (env : Env) (db : Db) (rawPath : String) (body : Option J) :
    Except PyErr (Nat × Db) × List Ev :=
  match body with
  | none => (.error .jsonDecodeError, [])
  | some b =>
    match b with
    | J.obj bodyFields =>
      if checkKeys (bodyFields.map Prod.fst) then
        let parsed : Except PyErr (J × J × String × J × J) := do
          let metadata ← pyIndex b "contacts" >>= pyIndex0
          let whatsapp_profile ← pyIndex metadata "profile" >>= (pyIndex · "name")
          let wa_id ← pyIndex metadata "wa_id"
          let wa ← match wa_id with
            | J.str s => Except.ok s
            | _ => Except.error PyErr.typeError
          let message ← pyIndex b "messages" >>= pyIndex0
          let message_type ← pyIndex message "type"
          pure (metadata, whatsapp_profile, wa, message, message_type)
        match parsed with
        | .error e => (.error e, [])
        | .ok (metadata, whatsapp_profile, whatsapp_username, message, message_type) =>
          match pyRsplitLast rawPath '/' with
          | .error e => (.error e, [])
          | .ok business_account =>
            let whatsapp_chat_id := whatsapp_username
            let ev1 := [Ev.sqlGetAggregatedData (business_account ++ ":" ++ whatsapp_chat_id),
                        Ev.sqlGetWhatsappBotToken business_account]
            let aggregated_data := env.aggRow
            let chat_room_id := aggregated_data.bind (·.chat_room_id)
            let channel_id := aggregated_data.bind (·.channel_id)
            let chat_room_status := aggregated_data.bind (·.chat_room_status)
            let client_id := aggregated_data.bind (·.client_id)
            match env.botToken with
            | none => (.error .typeError, ev1)
            | some whatsapp_bot_token =>
              if chat_room_id = none &&
                  (available_types.tail.any fun t => jEq message_type (J.str t)) then
                (.ok (200, db),
                  ev1 ++ [Ev.providerSendText whatsapp_bot_token whatsapp_chat_id
                            first_text_notice])
              else if !(available_types.any fun t => jEq message_type (J.str t)) then
                (.ok (200, db),
                  ev1 ++ [Ev.providerSendText whatsapp_bot_token whatsapp_chat_id
                            unsupported_type_notice])
              else
                let fm := form_message_format env message chat_room_id whatsapp_bot_token
                match fm.1 with
                | .error e => (.error e, ev1 ++ fm.2)
                | .ok (message_text, message_content) =>
                  let ev2 := ev1 ++ fm.2
                  match chat_room_status with
                  | none =>
                    let lookedUp := get_identified_user_data db whatsapp_username
                    let ev3 := ev2 ++ [Ev.sqlGetIdentifiedUserData whatsapp_username]
                    let step : Except PyErr (Db × Nat) × List Ev :=
                      match lookedUp with
                      | some uid => (.ok (db, uid), ev3)
                      | none =>
                        let created := create_identified_user db
                          { identified_user_primary_phone_number := "+" ++ whatsapp_username,
                            metadata := metadata,
                            whatsapp_profile := whatsapp_profile,
                            whatsapp_username := whatsapp_username }
                        let ev4 := ev3 ++ [Ev.sqlCreateIdentifiedUser whatsapp_username]
                        match created.2 with
                        | .error e => (.error e, ev4)
                        | .ok uid => (.ok (created.1, uid), ev4)
                    match step.1 with
                    | .error e => (.error e, step.2)
                    | .ok (db', uid) =>
                      let ev5 := step.2 ++ [Ev.gqlCreateChatRoom (some uid) message_text
                        message_content (business_account ++ ":" ++ whatsapp_chat_id)]
                      finishMessage env db' (some env.chatRoomIdResp) (some uid)
                        (some env.channelIdResp) message_text message_content ev5
                  | some st =>
                    if st = "completed" then
                      let ev3 := ev2 ++ [Ev.gqlActivateClosedChatRoom chat_room_id client_id
                        message_text message_content]
                      finishMessage env db chat_room_id client_id channel_id
                        message_text message_content ev3
                    else
                      finishMessage env db chat_room_id client_id channel_id
                        message_text message_content ev2
      else (.ok (200, db), [])
    | _ => (.error .attributeError, [])

end SendMessageFromWhatsapp

namespace SendMessageToWhatsapp

/-- `uuid.UUID(value)` on a required argument: a missing key or JSON null is
Python `None` and rejected; a malformed UUID string raises `ValueError`; a
non-string raises before validation. -/
def requireUUID (input : J) (k : String) : Except PyErr String :=
  match pyGet input k with
  | none => .error (.argumentNone k)
  | some (J.str s) => if pyUUIDValid s then .ok s else .error (.argumentNotUUID k)
  | some _ => .error .attributeError

/-- `input_arguments["quotedMessage"][k]` with only `KeyError` caught: a
missing `quotedMessage` or a missing/null inner key yields `None`; a
non-dict `quotedMessage` raises uncaught. -/
def quotedField (input : J) (k : String) : Except PyErr (Option J) :=
  match (match input with
         | J.obj fs => lookupField "quotedMessage" fs
         | _ => none) with
  | none => .ok none
  | some (J.obj qfs) =>
    .ok (match lookupField k qfs with
         | some J.null => none
         | some v => some v
         | none => none)
  | some _ => .error .typeError

/-- `uuid.UUID` validation of an optional quoted-message id. -/
def checkOptUUID (v : Option J) (k : String) : Except PyErr (Option String) :=
  match v with
  | none => .ok none
  | some (J.str s) => if pyUUIDValid s then .ok (some s) else .error (.argumentNotUUID k)
  | some _ => .error .attributeError

/-- `check_input_arguments` of `send_message_to_whatsapp` (lines 77-172):
requires `chatRoomId`, `messageAuthorId` and `messageChannelId` to parse as
UUIDs, validates the optional quoted-message ids, and passes everything else
through. -/
def check_input_arguments (body : J) : Except PyErr InputArguments := do
  let input ← pyIndex body "arguments" >>= (pyIndex · "input")
  let chat_room_id ← requireUUID input "chatRoomId"
  let message_author_id ← requireUUID input "messageAuthorId"
  let message_channel_id ← requireUUID input "messageChannelId"
  let message_text := pyGet input "messageText"
  let message_content := pyGet input "messageContent"
  let qmid ← quotedField input "messageId"
  let quoted_message_id ← checkOptUUID qmid "quotedMessageId"
  let qmaid ← quotedField input "messageAuthorId"
  let quoted_message_author_id ← checkOptUUID qmaid "quotedMessageAuthorId"
  let qmcid ← quotedField input "messageChannelId"
  let quoted_message_channel_id ← checkOptUUID qmcid "quotedMessageChannelId"
  let quoted_message_text ← quotedField input "messageText"
  let quoted_message_content ← quotedField input "messageContent"
  let local_message_id := pyGet input "localMessageId"
  pure { chat_room_id, message_author_id, message_channel_id, message_text,
         message_content, quoted_message_id, quoted_message_author_id,
         quoted_message_channel_id, quoted_message_text, quoted_message_content,
         local_message_id }

/-- External responses consumed by `send_message_to_whatsapp`. -/
structure EnvOperator where
  /-- row of `get_aggregated_data`: `(split_part(whatsapp_chat_id), bot token)` -/
  chatRoomRow : Option (String × String)
  /-- `createChatRoomMessage` response echoed in the 200 body -/
  createMessageResp : J

/-- `lambda_handler` of `send_message_to_whatsapp` (lines 417-486).  The
validation runs in a joined thread; when it raises, its result never reaches
the queue and the dispatcher's read of `results_of_tasks["input_arguments"]`
raises `KeyError` before any SQL statement, backend or provider call. -/
def lambda_handler (env : EnvOperator) (body : Option J) :
    Except PyErr (Nat × J) × List Ev :=
  match body with
  | none => (.error .jsonDecodeError, [])
  | some b =>
    match check_input_arguments b with
    | .error _ => (.error (.keyError "input_arguments"), [])
    | .ok input_arguments =>
      let ev1 := [Ev.sqlGetChatRoomData (some (J.str input_arguments.chat_room_id))]
      match env.chatRoomRow with
      | none => (.error .typeError, ev1)
      | some (whatsapp_chat_id, whatsapp_bot_token) =>
        (.ok (200, env.createMessageResp),
          ev1 ++ [Ev.gqlCreateChatRoomMessageOperator input_arguments,
                  Ev.providerSendMessageText whatsapp_bot_token whatsapp_chat_id
                    input_arguments.message_text])

end SendMessageToWhatsapp

namespace SendTemplateToWhatsapp

/-- `check_input_arguments` of `send_template_to_whatsapp` (lines 77-113):
every present key must be one of the three required ids, must not be null,
and must parse as a UUID. -/
def validateItems : List (String × J) → Except PyErr Unit
  | [] => .ok ()
  | (k, v) :: rest =>
    if !(k == "chatRoomId" || k == "messageAuthorId" || k == "messageChannelId") then
      .error (.argumentUnknown k)
    else if jEq v J.null then .error (.argumentNone k)
    else if "Id".toList.isSuffixOf k.toList then
      match v with
      | J.str s => if pyUUIDValid s then validateItems rest else .error (.argumentNotUUID k)
      | _ => .error .attributeError
    else validateItems rest

def check_input_arguments (body : J) : Except PyErr TemplateArguments := do
  let input ← pyIndex body "arguments" >>= (pyIndex · "input")
  match input with
  | J.obj fs => do
    let _ ← validateItems fs
    pure { chat_room_id := pyGet input "chatRoomId",
           message_author_id := pyGet input "messageAuthorId",
           message_channel_id := pyGet input "messageChannelId",
           message_text := none }
  | _ => .error .attributeError

/-- The canned re-engagement text.  Only the first literal is assigned in the
source; the second line there is a bare expression statement with no effect. -/
def canned_message_text : String :=
  "Здравствуйте! Ваше сообщение было получено нами, пока мы были недоступны. Можем "

/-- A Python value can be a member of a set literal only if it is hashable;
dicts and lists are not. -/
def pyHashable : J → Bool
  | J.obj _ => false
  | J.arr _ => false
  | _ => true

/-- Building a Python set literal `\x7b x \x7d` hashes its element. -/
def pySetLiteralOfOne (x : J) : Except PyErr (List J) :=
  if pyHashable x then .ok [x] else .error .unhashableType

/-- `send_template_to_whatsapp` (lines 283-331).  The source builds
`parameters` as a set literal whose single element is the request dict, so
constructing it hashes a dict and raises `TypeError` before the provider
POST is ever made. -/
def send_template_to_whatsapp (whatsapp_bot_token whatsapp_chat_id : String) :
    Except PyErr Unit × List Ev :=
  let _ := whatsapp_bot_token
  let request_dict : J := J.obj [
    ("to", J.str whatsapp_chat_id),
    ("ttl", J.str "P1D"),
    ("type", J.str "hsm"),
    ("hsm", J.obj [
      ("namespace", J.str "98519ab7_9b3c_4f38_87d3_50846c76fcf5"),
      ("element_name", J.str "keep_alive"),
      ("language", J.obj [("policy", J.str "deterministic"), ("code", J.str "ru")])])]
  match pySetLiteralOfOne request_dict with
  | .error e => (.error e, [])
  | .ok _ => (.ok (), [Ev.providerSendTemplate])

/-- External responses consumed by `send_template_to_whatsapp`. -/
structure EnvTemplate where
  /-- row of `get_aggregated_data`: `(whatsapp_chat_id, bot token)` -/
  chatRoomRow : Option (String × String)
  /-- `createChatRoomMessage` response echoed in the 200 body -/
  createMessageResp : J

/-- `lambda_handler` of `send_template_to_whatsapp` (lines 334-401): validate,
look up the chat room, persist the canned message, then call
`send_template_to_whatsapp`. -/
def lambda_handler (env : EnvTemplate) (body : Option J) :
    Except PyErr (Nat × J) × List Ev :=
  match body with
  | none => (.error .jsonDecodeError, [])
  | some b =>
    match check_input_arguments b with
    | .error _ => (.error (.keyError "input_arguments"), [])
    | .ok args =>
      let ev1 := [Ev.sqlGetChatRoomData args.chat_room_id]
      match env.chatRoomRow with
      | none => (.error .typeError, ev1)
      | some (whatsapp_chat_id, whatsapp_bot_token) =>
        let args' := { args with message_text := some canned_message_text }
        let ev2 := ev1 ++ [Ev.gqlCreateChatRoomMessageTemplate args'.chat_room_id
          args'.message_author_id args'.message_channel_id args'.message_text]
        let st := send_template_to_whatsapp whatsapp_bot_token whatsapp_chat_id
        match st.1 with
        | .error e => (.error e, ev2 ++ st.2)
        | .ok _ => (.ok (200, env.createMessageResp), ev2 ++ st.2)

end SendTemplateToWhatsapp

/-! ## Helper lemmas -/

theorem findSome?_eq_none_of {α β} {f : α → Option β} {l : List α}
    (h : ∀ x ∈ l, f x = none) : l.findSome? f = none := by
  induction l with
  | nil => rfl
  | cons a as ih =>
    have ha := h a (List.mem_cons_self a as)
    simp only [List.findSome?, ha]
    exact ih fun x hx => h x (List.mem_cons_of_mem a hx)

theorem findSome?_append_left_none {α β} {f : α → Option β} {l₁ : List α}
    (l₂ : List α) (h : ∀ x ∈ l₁, f x = none) :
    (l₁ ++ l₂).findSome? f = l₂.findSome? f := by
  induction l₁ with
  | nil => rfl
  | cons a as ih =>
    have ha := h a (List.mem_cons_self a as)
    simp only [List.cons_append, List.findSome?, ha]
    exact ih fun x hx => h x (List.mem_cons_of_mem a hx)

/-! ## C1: identity creation is idempotent per handle -/

/-- C1: `create_identified_user` is idempotent under the unique
`whatsapp_username` constraint: starting from a well-formed store with no row
for the handle, the first call returns a user id and leaves exactly one
`identified_users` row for the handle; the second call with the same handle
adds no row and returns no id (the conflict fires, the insert returns no row
and the unconditional subscript of the fetch raises); and a follow-up
`get_identified_user_data` lookup returns the first call's user id. -/
theorem create_identified_user_idempotent (db : Db) (a : IdentifiedUserArgs)
    (hwf : Db.WF db)
    (hfresh : ∀ r ∈ db.identified_users, r.whatsapp_username ≠ a.whatsapp_username) :
    ∃ db1 uid,
      create_identified_user db a = (db1, .ok uid) ∧
      db1.identified_users.countP
        (fun r => r.whatsapp_username == a.whatsapp_username) = 1 ∧
      (create_identified_user db1 a).1 = db1 ∧
      (create_identified_user db1 a).2 = .error .typeError ∧
      get_identified_user_data db1 a.whatsapp_username = some uid := by
  have hany : db.identified_users.any
      (fun r => r.whatsapp_username == a.whatsapp_username) = false := by
    rw [List.any_eq_false]
    intro r hr
    simpa using hfresh r hr
  set newRow : IdentifiedUserRow :=
    ⟨db.next_identified_user_id, a.identified_user_primary_phone_number, a.metadata,
      a.whatsapp_profile, a.whatsapp_username⟩ with hnewRow
  set newUser : UserRow :=
    ⟨db.next_user_id, some db.next_identified_user_id, none, none⟩ with hnewUser
  refine ⟨{ identified_users := db.identified_users ++ [newRow],
            users := db.users ++ [newUser],
            next_identified_user_id := db.next_identified_user_id + 1,
            next_user_id := db.next_user_id + 1 },
          db.next_user_id, ?_, ?_, ?_, ?_, ?_⟩
  · simp [create_identified_user, hany]
  · rw [List.countP_append]
    have h0 : db.identified_users.countP
        (fun r => r.whatsapp_username == a.whatsapp_username) = 0 := by
      rw [List.countP_eq_zero]
      intro r hr
      simpa using hfresh r hr
    simp [h0, hnewRow]
  · have : (db.identified_users ++ [newRow]).any
        (fun r => r.whatsapp_username == a.whatsapp_username) = true := by
      rw [List.any_eq_true]
      exact ⟨newRow, by simp, by simp [hnewRow]⟩
    simp [create_identified_user, this]
  · have : (db.identified_users ++ [newRow]).any
        (fun r => r.whatsapp_username == a.whatsapp_username) = true := by
      rw [List.any_eq_true]
      exact ⟨newRow, by simp, by simp [hnewRow]⟩
    simp [create_identified_user, this]
  · unfold get_identified_user_data
    rw [findSome?_append_left_none]
    · simp only [List.findSome?, hnewRow, if_pos rfl]
      rw [findSome?_append_left_none]
      · simp [hnewUser]
      · intro u hu
        have hlt := hwf.2 u hu
        have : ¬(u.identified_user_id = some db.next_identified_user_id ∧
            u.internal_user_id = none ∧ u.unidentified_user_id = none) := by
          rintro ⟨h1, -, -⟩
          exact absurd (hlt _ h1) (lt_irrefl _)
        simp [this]
    · intro r hr
      have := hfresh r hr
      simp [this]

/-! ## C2, C5, C6: message normalization -/

namespace SendMessageFromWhatsapp

inductive PayloadShape where
  | text
  | location
  | image
  | video
  | document
  | voice
deriving DecidableEq

/-- "The payload object matches its declared type": the declared `type` is the
shape's name, the correspondingly named payload object is present as a JSON
object carrying the provider schema's required fields, and none of the other
five payload objects is present. -/
inductive Shaped : J → PayloadShape → Prop where
  | text {m : J} {fs : List (String × J)} {body : J} :
      pyIndex m "type" = .ok (J.str "text") →
      pyGet m "text" = some (J.obj fs) →
      lookupField "body" fs = some body →
      pyGet m "location" = none → pyGet m "image" = none → pyGet m "video" = none →
      pyGet m "document" = none → pyGet m "voice" = none →
      Shaped m .text
  | location {m : J} {fs : List (String × J)} {lat lon : J} :
      pyIndex m "type" = .ok (J.str "location") →
      pyGet m "text" = none →
      pyGet m "location" = some (J.obj fs) →
      lookupField "latitude" fs = some lat →
      lookupField "longitude" fs = some lon →
      pyGet m "image" = none → pyGet m "video" = none →
      pyGet m "document" = none → pyGet m "voice" = none →
      Shaped m .location
  | image {m : J} {fs : List (String × J)} {fid : String} {mime : J} :
      pyIndex m "type" = .ok (J.str "image") →
      pyGet m "text" = none → pyGet m "location" = none →
      pyGet m "image" = some (J.obj fs) →
      lookupField "id" fs = some (J.str fid) →
      lookupField "mime_type" fs = some mime →
      pyGet m "video" = none → pyGet m "document" = none → pyGet m "voice" = none →
      Shaped m .image
  | video {m : J} {fs : List (String × J)} {fid : String} {mime : J} :
      pyIndex m "type" = .ok (J.str "video") →
      pyGet m "text" = none → pyGet m "location" = none → pyGet m "image" = none →
      pyGet m "video" = some (J.obj fs) →
      lookupField "id" fs = some (J.str fid) →
      lookupField "mime_type" fs = some mime →
      pyGet m "document" = none → pyGet m "voice" = none →
      Shaped m .video
  | document {m : J} {fs : List (String × J)} {fid fname : String} {mime : J} :
      pyIndex m "type" = .ok (J.str "document") →
      pyGet m "text" = none → pyGet m "location" = none → pyGet m "image" = none →
      pyGet m "video" = none →
      pyGet m "document" = some (J.obj fs) →
      lookupField "id" fs = some (J.str fid) →
      lookupField "mime_type" fs = some mime →
      lookupField "filename" fs = some (J.str fname) →
      pyGet m "voice" = none →
      Shaped m .document
  | voice {m : J} {fs : List (String × J)} {fid : String} {mime : J} :
      pyIndex m "type" = .ok (J.str "voice") →
      pyGet m "text" = none → pyGet m "location" = none → pyGet m "image" = none →
      pyGet m "video" = none → pyGet m "document" = none →
      pyGet m "voice" = some (J.obj fs) →
      lookupField "id" fs = some (J.str fid) →
      lookupField "mime_type" fs = some mime →
      Shaped m .voice

/-- A concrete environment of responsive collaborators, shared by the
counterexamples and witnesses below. -/
def envC : Env :=
  { aggRow := none, botToken := some "tok",
    mediaContent := fun _ => "bin", mediaContentType := fun _ => "image/jpeg",
    presign := fun _ => ⟨"https://up", "https://orig", "k", "alg", "cred", "date",
      "pol", "sig"⟩,
    imageDims := fun _ => (640, 480),
    chatRoomIdResp := "room-1", channelIdResp := "chan-1", messageIdResp := "msg-1" }

/-- A schema-conforming document payload whose filename has no extension dot. -/
def mDocNoext : J :=
  J.obj [("type", J.str "document"),
    ("document", J.obj [("id", J.str "d1"), ("mime_type", J.str "application/pdf"),
      ("filename", J.str "noext")])]

/-- Counterexample to C2 as stated: `mDocNoext` matches its declared type
`document`, yet `form_message_format` raises (`rsplit('.', 1)[1]` of a
dot-free filename) instead of returning a `(text, content)` pair. -/
theorem form_message_format_document_noext_crash :
    Shaped mDocNoext PayloadShape.document ∧
    (form_message_format envC mDocNoext (some "cr") "tok").1 = .error .indexError :=
  ⟨Shaped.document rfl rfl rfl rfl rfl rfl rfl rfl rfl rfl, rfl⟩

/-- Branch evaluation of `form_message_format` on a text payload. -/
theorem formEvalText (env : Env) (cr : Option String) (tok : String)
    (m : J) (fs : List (String × J))
    (htext : pyGet m "text" = some (J.obj fs))
    (hloc : pyGet m "location" = none) (himg : pyGet m "image" = none)
    (hvid : pyGet m "video" = none) (hdocn : pyGet m "document" = none)
    (hvoice : pyGet m "voice" = none) :
    form_message_format env m cr tok =
      (.ok (pyGet (J.obj fs) "body", none), []) := by
  simp [form_message_format, htext, hloc, himg, hvid, hdocn, hvoice, pyGetAttr]

/-- Branch evaluation of `form_message_format` on a location payload. -/
theorem formEvalLocation (env : Env) (cr : Option String) (tok : String)
    (m : J) (fs : List (String × J))
    (htext : pyGet m "text" = none) (himg : pyGet m "image" = none)
    (hvid : pyGet m "video" = none)
    (hloc : pyGet m "location" = some (J.obj fs)) :
    form_message_format env m cr tok =
      (.ok (none, some [J.obj [("category", J.str "location"),
        ("details", J.obj [("latitude", jOfOpt (pyGet (J.obj fs) "latitude")),
                           ("longitude", jOfOpt (pyGet (J.obj fs) "longitude"))])]]),
       []) := by
  simp [form_message_format, htext, himg, hvid, hloc]

/-- Branch evaluation of `form_message_format` on an image payload. -/
theorem formEvalImage (env : Env) (cr : Option String) (tok : String)
    (m : J) (fs : List (String × J)) (fid : String) (mime : J)
    (htext : pyGet m "text" = none) (hloc : pyGet m "location" = none)
    (himg : pyGet m "image" = some (J.obj fs))
    (hid : lookupField "id" fs = some (J.str fid))
    (hmime : lookupField "mime_type" fs = some mime) :
    form_message_format env m cr tok =
      (.ok (pyGet (J.obj fs) "caption",
        some [J.obj [("category", J.str "image"),
          ("fileName", J.str (fid ++ ".jpeg")),
          ("fileExtension", J.str ".jpeg"),
          ("fileSize", J.str (env.mediaContentType fid)),
          ("mimeType", mime),
          ("url", J.str (env.presign
            ("chat_rooms/" ++ pyStrOfOption cr ++ "/" ++ (fid ++ ".jpeg"))).original_url),
          ("dimensions", J.obj
            [("width", J.num (env.imageDims (env.mediaContent fid)).1),
             ("height", J.num (env.imageDims (env.mediaContent fid)).2)])]]),
       [Ev.httpMediaFetch fid,
        Ev.httpPresignRequest ("chat_rooms/" ++ pyStrOfOption cr ++ "/" ++ (fid ++ ".jpeg")),
        Ev.httpUploadPost (env.presign
          ("chat_rooms/" ++ pyStrOfOption cr ++ "/" ++ (fid ++ ".jpeg"))).upload_url]) := by
  simp [form_message_format, htext, hloc, himg, pyGetAttr, pyIndex, hid, hmime,
    get_the_binary_data, upload_file_to_s3_bucket]

/-- Branch evaluation of `form_message_format` on a video payload. -/
theorem formEvalVideo (env : Env) (cr : Option String) (tok : String)
    (m : J) (fs : List (String × J)) (fid : String) (mime : J)
    (htext : pyGet m "text" = none) (hloc : pyGet m "location" = none)
    (himg : pyGet m "image" = none)
    (hvid : pyGet m "video" = some (J.obj fs))
    (hid : lookupField "id" fs = some (J.str fid))
    (hmime : lookupField "mime_type" fs = some mime) :
    form_message_format env m cr tok =
      (.ok (pyGet (J.obj fs) "caption",
        some [J.obj [("category", J.str "document"),
          ("fileName", J.str (fid ++ ".mp4")),
          ("fileExtension", J.str ".mp4"),
          ("fileSize", J.str (env.mediaContentType fid)),
          ("mimeType", mime),
          ("url", J.str (env.presign
            ("chat_rooms/" ++ pyStrOfOption cr ++ "/" ++ (fid ++ ".mp4"))).original_url)]]),
       [Ev.httpMediaFetch fid,
        Ev.httpPresignRequest ("chat_rooms/" ++ pyStrOfOption cr ++ "/" ++ (fid ++ ".mp4")),
        Ev.httpUploadPost (env.presign
          ("chat_rooms/" ++ pyStrOfOption cr ++ "/" ++ (fid ++ ".mp4"))).upload_url]) := by
  simp [form_message_format, htext, hloc, himg, hvid, pyGetAttr, pyIndex, hid, hmime,
    get_the_binary_data, upload_file_to_s3_bucket]

/-- Branch evaluation of `form_message_format` on a document payload whose
filename contains a dot. -/
theorem formEvalDocument (env : Env) (cr : Option String) (tok : String)
    (m : J) (fs : List (String × J)) (fid fname : String) (mime : J)
    (htext : pyGet m "text" = none) (hloc : pyGet m "location" = none)
    (himg : pyGet m "image" = none) (hvid : pyGet m "video" = none)
    (hdocn : pyGet m "document" = some (J.obj fs))
    (hid : lookupField "id" fs = some (J.str fid))
    (hmime : lookupField "mime_type" fs = some mime)
    (hfname : lookupField "filename" fs = some (J.str fname))
    (hsplit : 1 < (splitChar '.' fname.toList).length) :
    form_message_format env m cr tok =
      (.ok (none,
        some [J.obj [("category", J.str "document"),
          ("fileName", J.str fname),
          ("fileExtension", J.str
            (("." ++ String.mk ((splitChar '.' fname.toList).getLastD [])).toLower)),
          ("fileSize", J.str (env.mediaContentType fid)),
          ("mimeType", mime),
          ("url", J.str (env.presign
            ("chat_rooms/" ++ pyStrOfOption cr ++ "/" ++ fname)).original_url)]]),
       [Ev.httpMediaFetch fid,
        Ev.httpPresignRequest ("chat_rooms/" ++ pyStrOfOption cr ++ "/" ++ fname),
        Ev.httpUploadPost (env.presign
          ("chat_rooms/" ++ pyStrOfOption cr ++ "/" ++ fname)).upload_url]) := by
  have hr : pyRsplitLast fname '.' =
      .ok (String.mk ((splitChar '.' fname.toList).getLastD [])) := by
    unfold pyRsplitLast
    rw [if_neg (by omega)]
  simp [form_message_format, htext, hloc, himg, hvid, hdocn, pyGetAttr, pyIndex,
    hid, hmime, hfname, hr, get_the_binary_data, upload_file_to_s3_bucket]

/-- Branch evaluation of `form_message_format` on a voice payload. -/
theorem formEvalVoice (env : Env) (cr : Option String) (tok : String)
    (m : J) (fs : List (String × J)) (fid : String) (mime : J)
    (htext : pyGet m "text" = none) (hloc : pyGet m "location" = none)
    (himg : pyGet m "image" = none) (hvid : pyGet m "video" = none)
    (hdocn : pyGet m "document" = none)
    (hvoice : pyGet m "voice" = some (J.obj fs))
    (hid : lookupField "id" fs = some (J.str fid))
    (hmime : lookupField "mime_type" fs = some mime) :
    form_message_format env m cr tok =
      (.ok (none,
        some [J.obj [("category", J.str "audio"),
          ("fileName", J.str (fid ++ ".ogg")),
          ("fileExtension", J.str ".ogg"),
          ("fileSize", J.str (env.mediaContentType fid)),
          ("mimeType", mime),
          ("url", J.str (env.presign
            ("chat_rooms/" ++ pyStrOfOption cr ++ "/" ++ (fid ++ ".ogg"))).original_url)]]),
       [Ev.httpMediaFetch fid,
        Ev.httpPresignRequest ("chat_rooms/" ++ pyStrOfOption cr ++ "/" ++ (fid ++ ".ogg")),
        Ev.httpUploadPost (env.presign
          ("chat_rooms/" ++ pyStrOfOption cr ++ "/" ++ (fid ++ ".ogg"))).upload_url]) := by
  simp [form_message_format, htext, hloc, himg, hvid, hdocn, hvoice, pyGetAttr,
    pyIndex, hid, hmime, get_the_binary_data, upload_file_to_s3_bucket]

/-- C2 (amended): for every supported payload whose payload object matches its
declared type — and, for `document` payloads, whose filename contains a dot —
`form_message_format` returns a `(message_text, message_content)` pair where
`message_content` is null exactly for text payloads and a single-element list
for every other supported type. -/
theorem form_message_format_normalizes (env : Env) (cr : Option String) (tok : String)
    (m : J) (s : PayloadShape) (h : Shaped m s)
    (hdoc : ∀ fs fname, pyGet m "document" = some (J.obj fs) →
      lookupField "filename" fs = some (J.str fname) →
      1 < (splitChar '.' fname.toList).length) :
    ∃ mt mc, (form_message_format env m cr tok).1 = .ok (mt, mc) ∧
      (mc = none ↔ s = PayloadShape.text) ∧
      (s ≠ PayloadShape.text → ∃ c, mc = some [c]) := by
  cases h with
  | text hty htext hbody hloc himg hvid hdocn hvoice =>
    exact ⟨_, _, congrArg Prod.fst
      (formEvalText env cr tok m _ htext hloc himg hvid hdocn hvoice),
      by simp, by simp⟩
  | location hty htext hloc hlat hlon himg hvid hdocn hvoice =>
    exact ⟨_, _, congrArg Prod.fst
      (formEvalLocation env cr tok m _ htext himg hvid hloc),
      by simp, fun _ => ⟨_, rfl⟩⟩
  | image hty htext hloc himg hid hmime hvid hdocn hvoice =>
    exact ⟨_, _, congrArg Prod.fst
      (formEvalImage env cr tok m _ _ _ htext hloc himg hid hmime),
      by simp, fun _ => ⟨_, rfl⟩⟩
  | video hty htext hloc himg hvid hid hmime hdocn hvoice =>
    exact ⟨_, _, congrArg Prod.fst
      (formEvalVideo env cr tok m _ _ _ htext hloc himg hvid hid hmime),
      by simp, fun _ => ⟨_, rfl⟩⟩
  | document hty htext hloc himg hvid hdocn hid hmime hfname hvoice =>
    exact ⟨_, _, congrArg Prod.fst
      (formEvalDocument env cr tok m _ _ _ _ htext hloc himg hvid hdocn hid hmime
        hfname (hdoc _ _ hdocn hfname)),
      by simp, fun _ => ⟨_, rfl⟩⟩
  | voice hty htext hloc himg hvid hdocn hvoice hid hmime =>
    exact ⟨_, _, congrArg Prod.fst
      (formEvalVoice env cr tok m _ _ _ htext hloc himg hvid hdocn hvoice hid hmime),
      by simp, fun _ => ⟨_, rfl⟩⟩

/-- Witness for C2 (amended) at a concrete text payload. -/
theorem form_message_format_normalizes_witness :
    ∃ mt mc,
      (form_message_format envC
        (J.obj [("type", J.str "text"), ("text", J.obj [("body", J.str "hello")])])
        none "tok").1 = .ok (mt, mc) ∧
      (mc = none ↔ PayloadShape.text = PayloadShape.text) ∧
      (PayloadShape.text ≠ PayloadShape.text → ∃ c, mc = some [c]) :=
  form_message_format_normalizes envC none "tok"
    (J.obj [("type", J.str "text"), ("text", J.obj [("body", J.str "hello")])])
    PayloadShape.text
    (Shaped.text rfl rfl rfl rfl rfl rfl rfl rfl)
    (fun _ _ h _ => by simp [pyGet, lookupField] at h)

/-- C5: for every image payload, normalization performs the provider media
fetch, then the presign request keyed by
`chat_rooms/{conversationId}/{attachmentId}.jpeg`, then the form POST to the
presigned target, in that order, and the produced `url` field is the presign
response's original file URL (the upload POST's response is never consulted). -/
theorem form_message_format_image_flow (env : Env) (cr : Option String) (tok : String)
    (m : J) (fs : List (String × J)) (fid : String) (mime : J)
    (htext : pyGet m "text" = none) (hloc : pyGet m "location" = none)
    (himg : pyGet m "image" = some (J.obj fs))
    (hid : lookupField "id" fs = some (J.str fid))
    (hmime : lookupField "mime_type" fs = some mime) :
    form_message_format env m cr tok =
      (.ok (pyGet (J.obj fs) "caption",
        some [J.obj [("category", J.str "image"),
          ("fileName", J.str (fid ++ ".jpeg")),
          ("fileExtension", J.str ".jpeg"),
          ("fileSize", J.str (env.mediaContentType fid)),
          ("mimeType", mime),
          ("url", J.str (env.presign
            ("chat_rooms/" ++ pyStrOfOption cr ++ "/" ++ (fid ++ ".jpeg"))).original_url),
          ("dimensions", J.obj
            [("width", J.num (env.imageDims (env.mediaContent fid)).1),
             ("height", J.num (env.imageDims (env.mediaContent fid)).2)])]]),
       [Ev.httpMediaFetch fid,
        Ev.httpPresignRequest ("chat_rooms/" ++ pyStrOfOption cr ++ "/" ++ (fid ++ ".jpeg")),
        Ev.httpUploadPost (env.presign
          ("chat_rooms/" ++ pyStrOfOption cr ++ "/" ++ (fid ++ ".jpeg"))).upload_url]) :=
  formEvalImage env cr tok m fs fid mime htext hloc himg hid hmime

/-- Witness for C5 at a concrete image payload. -/
theorem form_message_format_image_flow_witness :
    form_message_format envC
      (J.obj [("type", J.str "image"),
        ("image", J.obj [("id", J.str "f1"), ("mime_type", J.str "image/jpeg")])])
      (some "cr") "tok" =
      (.ok (pyGet (J.obj [("id", J.str "f1"), ("mime_type", J.str "image/jpeg")]) "caption",
        some [J.obj [("category", J.str "image"),
          ("fileName", J.str ("f1" ++ ".jpeg")),
          ("fileExtension", J.str ".jpeg"),
          ("fileSize", J.str (envC.mediaContentType "f1")),
          ("mimeType", J.str "image/jpeg"),
          ("url", J.str (envC.presign
            ("chat_rooms/" ++ pyStrOfOption (some "cr") ++ "/" ++ ("f1" ++ ".jpeg"))).original_url),
          ("dimensions", J.obj
            [("width", J.num (envC.imageDims (envC.mediaContent "f1")).1),
             ("height", J.num (envC.imageDims (envC.mediaContent "f1")).2)])]]),
       [Ev.httpMediaFetch "f1",
        Ev.httpPresignRequest ("chat_rooms/" ++ pyStrOfOption (some "cr") ++ "/" ++ ("f1" ++ ".jpeg")),
        Ev.httpUploadPost (envC.presign
          ("chat_rooms/" ++ pyStrOfOption (some "cr") ++ "/" ++ ("f1" ++ ".jpeg"))).upload_url]) :=
  form_message_format_image_flow envC (some "cr") "tok" _
    [("id", J.str "f1"), ("mime_type", J.str "image/jpeg")] "f1" (J.str "image/jpeg")
    rfl rfl rfl rfl rfl

/-- Counterexample to C6 as stated: on a location payload the produced content
element nests the coordinates under a `details` object; it has no top-level
`latitude`/`longitude` fields alongside the `category` tag. -/
theorem form_message_format_location_flat_refuted :
    (form_message_format envC
      (J.obj [("type", J.str "location"),
        ("location", J.obj [("latitude", J.num 1), ("longitude", J.num 2)])])
      (some "cr") "tok").1 =
      .ok (none, some [J.obj [("category", J.str "location"),
        ("details", J.obj [("latitude", J.num 1), ("longitude", J.num 2)])]]) ∧
    pyGet (J.obj [("category", J.str "location"),
      ("details", J.obj [("latitude", J.num 1), ("longitude", J.num 2)])]) "latitude"
      = none ∧
    pyGet (J.obj [("category", J.str "location"),
      ("details", J.obj [("latitude", J.num 1), ("longitude", J.num 2)])]) "longitude"
      = none :=
  ⟨rfl, rfl, rfl⟩

/-- C6 (amended): for every location payload, `form_message_format` returns a
null message text and a single-element content list whose element is
`{category: "location", details: {latitude, longitude}}` — the coordinates are
nested under a `details` object rather than sitting alongside the category
tag. -/
theorem form_message_format_location_details (env : Env) (cr : Option String)
    (tok : String) (m : J) (fs : List (String × J))
    (htext : pyGet m "text" = none) (himg : pyGet m "image" = none)
    (hvid : pyGet m "video" = none)
    (hloc : pyGet m "location" = some (J.obj fs)) :
    form_message_format env m cr tok =
      (.ok (none, some [J.obj [("category", J.str "location"),
        ("details", J.obj [("latitude", jOfOpt (pyGet (J.obj fs) "latitude")),
                           ("longitude", jOfOpt (pyGet (J.obj fs) "longitude"))])]]),
       []) :=
  formEvalLocation env cr tok m fs htext himg hvid hloc

/-- Witness for C6 (amended) at a concrete location payload. -/
theorem form_message_format_location_details_witness :
    form_message_format envC
      (J.obj [("type", J.str "location"),
        ("location", J.obj [("latitude", J.num 1), ("longitude", J.num 2)])])
      (some "cr") "tok" =
      (.ok (none, some [J.obj [("category", J.str "location"),
        ("details", J.obj [("latitude",
          jOfOpt (pyGet (J.obj [("latitude", J.num 1), ("longitude", J.num 2)]) "latitude")),
                           ("longitude",
          jOfOpt (pyGet (J.obj [("latitude", J.num 1), ("longitude", J.num 2)]) "longitude"))])]]),
       []) :=
  form_message_format_location_details envC (some "cr") "tok" _
    [("latitude", J.num 1), ("longitude", J.num 2)] rfl rfl rfl rfl

/-! ## C3, C4, C7, C10: inbound dispatch -/

/-- A webhook body of the documented shape: one contact (profile name and
`wa_id`) and one message. -/
def mkInboundBody (pname waid : String) (m : J) : J :=
  J.obj [("contacts", J.arr [J.obj [("profile", J.obj [("name", J.str pname)]),
          ("wa_id", J.str waid)]]),
         ("messages", J.arr [m])]

/-- `form_message_format` performs no GraphQL call. -/
theorem form_message_format_no_gql (env : Env) (m : J) (cr : Option String)
    (tok : String) :
    ((form_message_format env m cr tok).2).filter Ev.isGqlCall = [] := by
  rw [List.filter_eq_nil_iff]
  intro e he
  simp only [form_message_format] at he
  repeat' split at he
  all_goals simp only [get_the_binary_data, upload_file_to_s3_bucket,
    List.cons_append, List.nil_append, List.mem_cons, List.not_mem_nil,
    or_false] at he
  all_goals first
    | exact he.elim
    | (rcases he with rfl | rfl | rfl <;> simp [Ev.isGqlCall])

/-- C10: the inbound handler's key guard accepts a body exactly when every
present top-level key is `messages` or `contacts`; any body with a foreign
top-level key (e.g. a delivery-status callback) is ignored — status 200, no
database access, no provider call, no backend mutation — and the guard does
not require both keys to be present. -/
theorem inbound_ignores_foreign_bodies (env : Env) (db : Db) (rawPath : String)
    (fields : List (String × J))
    (h : checkKeys (fields.map Prod.fst) = false) :
    lambda_handler env db rawPath (some (J.obj fields)) = (.ok (200, db), []) ∧
    checkKeys ["messages"] = true := by
  constructor
  · simp [lambda_handler, h]
  · rfl

/-- Witness for C10 at a delivery-status callback body. -/
theorem inbound_ignores_foreign_bodies_witness :
    lambda_handler envC ⟨[], [], 0, 0⟩ "/webhook/acct1"
      (some (J.obj [("statuses", J.arr [])])) = (.ok (200, ⟨[], [], 0, 0⟩), []) ∧
    checkKeys ["messages"] = true :=
  inbound_ignores_foreign_bodies envC ⟨[], [], 0, 0⟩ "/webhook/acct1"
    [("statuses", J.arr [])] rfl

/-- C7: on an inbound event whose chat id has no conversation yet and whose
payload type is a supported non-text type, the dispatcher sends exactly one
text notice (asking for a text description first) to the provider and performs
no database write and no GraphQL mutation: the whole trace is the two SQL
reads followed by the single provider POST. -/
theorem inbound_new_nontext_notice (env : Env) (db : Db)
    (rawPath pname waid tok ba : String) (m : J) (mty : J)
    (hagg : env.aggRow = none) (htok : env.botToken = some tok)
    (hba : pyRsplitLast rawPath '/' = .ok ba)
    (hty : pyIndex m "type" = .ok mty)
    (hmem : mty ∈ available_types.tail.map J.str) :
    lambda_handler env db rawPath (some (mkInboundBody pname waid m)) =
      (.ok (200, db),
       [Ev.sqlGetAggregatedData (ba ++ ":" ++ waid),
        Ev.sqlGetWhatsappBotToken ba,
        Ev.providerSendText tok waid first_text_notice]) := by
  obtain ⟨t, htmem, rfl⟩ := List.mem_map.mp hmem
  have hany : (available_types.tail.any fun u => jEq (J.str t) (J.str u)) = true :=
    List.any_eq_true.mpr ⟨t, htmem, by simp [jEq]⟩
  simp only [pyIndex] at hty
  simp [lambda_handler, mkInboundBody, pyIndex, pyIndex0, lookupField, checkKeys,
    Bind.bind, Except.bind, pure, Except.pure, hty, hagg, htok, hba, hany]

/-- Witness for C7 at a concrete location payload. -/
theorem inbound_new_nontext_notice_witness :
    lambda_handler envC ⟨[], [], 0, 0⟩ "/webhook/acct1"
      (some (mkInboundBody "Alice" "77001112233"
        (J.obj [("type", J.str "location"),
          ("location", J.obj [("latitude", J.num 1), ("longitude", J.num 2)])]))) =
      (.ok (200, ⟨[], [], 0, 0⟩),
       [Ev.sqlGetAggregatedData ("acct1" ++ ":" ++ "77001112233"),
        Ev.sqlGetWhatsappBotToken "acct1",
        Ev.providerSendText "tok" "77001112233" first_text_notice]) :=
  inbound_new_nontext_notice envC ⟨[], [], 0, 0⟩ "/webhook/acct1" "Alice" "77001112233"
    "tok" "acct1"
    (J.obj [("type", J.str "location"),
      ("location", J.obj [("latitude", J.num 1), ("longitude", J.num 2)])])
    (J.str "location") rfl rfl rfl rfl (by simp [available_types])

/-- C3: for an inbound text message whose chat id has no existing conversation
(and a resolvable identity store), the dispatcher's GraphQL calls are exactly
`createChatRoom`, then `createChatRoomMessage`, then `updateMessageData`, in
that order — in particular it never calls `activateClosedChatRoom` — and the
invocation returns status 200. -/
theorem inbound_new_text_call_order (env : Env) (db : Db)
    (rawPath pname waid tok ba : String) (m : J)
    (mt : Option J) (mc : Option (List J)) (fmEvs : List Ev)
    (hagg : env.aggRow = none) (htok : env.botToken = some tok)
    (hba : pyRsplitLast rawPath '/' = .ok ba)
    (hty : pyIndex m "type" = .ok (J.str "text"))
    (hform : form_message_format env m none tok = (.ok (mt, mc), fmEvs))
    (hres : (get_identified_user_data db waid).isSome = true ∨
      ∀ r ∈ db.identified_users, r.whatsapp_username ≠ waid) :
    ∃ cli db',
      ((lambda_handler env db rawPath (some (mkInboundBody pname waid m))).2).filter
        Ev.isGqlCall =
        [Ev.gqlCreateChatRoom (some cli) mt mc (ba ++ ":" ++ waid),
         Ev.gqlCreateChatRoomMessage (some env.chatRoomIdResp) (some cli)
           (some env.channelIdResp) mt mc,
         Ev.gqlUpdateMessageData (some env.chatRoomIdResp) [env.messageIdResp]] ∧
      (lambda_handler env db rawPath (some (mkInboundBody pname waid m))).1 =
        .ok (200, db') := by
  have hfm : fmEvs.filter Ev.isGqlCall = [] := by
    have h := form_message_format_no_gql env m none tok
    rw [hform] at h
    exact h
  simp only [pyIndex] at hty
  rcases hlookup : get_identified_user_data db waid with _ | uid
  · have hfresh : ∀ r ∈ db.identified_users, r.whatsapp_username ≠ waid := by
      rcases hres with h | h
      · rw [hlookup] at h
        simp at h
      · exact h
    have hanyf : db.identified_users.any (fun r => r.whatsapp_username == waid) = false := by
      rw [List.any_eq_false]
      intro r hr
      simpa using hfresh r hr
    refine ⟨db.next_user_id,
      (create_identified_user db
        ⟨"+" ++ waid,
         J.obj [("profile", J.obj [("name", J.str pname)]), ("wa_id", J.str waid)],
         J.str pname, waid⟩).1, ?_, ?_⟩ <;>
      simp [lambda_handler, mkInboundBody, pyIndex, pyIndex0, lookupField, checkKeys,
        Bind.bind, Except.bind, pure, Except.pure, hty, hagg, htok, hba, hform, hlookup,
        finishMessage, hfm, jEq, available_types, create_identified_user, hanyf,
        Ev.isGqlCall]
  · refine ⟨uid, db, ?_, ?_⟩ <;>
      simp [lambda_handler, mkInboundBody, pyIndex, pyIndex0, lookupField, checkKeys,
        Bind.bind, Except.bind, pure, Except.pure, hty, hagg, htok, hba, hform, hlookup,
        finishMessage, hfm, jEq, available_types, Ev.isGqlCall]

/-- Witness for C3 at a concrete text message on an empty store. -/
theorem inbound_new_text_call_order_witness :
    ∃ cli db',
      ((lambda_handler envC ⟨[], [], 0, 0⟩ "/webhook/acct1"
        (some (mkInboundBody "Alice" "77001112233"
          (J.obj [("type", J.str "text"),
            ("text", J.obj [("body", J.str "hello")])])))).2).filter Ev.isGqlCall =
        [Ev.gqlCreateChatRoom (some cli) (some (J.str "hello")) none
          ("acct1" ++ ":" ++ "77001112233"),
         Ev.gqlCreateChatRoomMessage (some envC.chatRoomIdResp) (some cli)
           (some envC.channelIdResp) (some (J.str "hello")) none,
         Ev.gqlUpdateMessageData (some envC.chatRoomIdResp) [envC.messageIdResp]] ∧
      (lambda_handler envC ⟨[], [], 0, 0⟩ "/webhook/acct1"
        (some (mkInboundBody "Alice" "77001112233"
          (J.obj [("type", J.str "text"),
            ("text", J.obj [("body", J.str "hello")])])))).1 = .ok (200, db') :=
  inbound_new_text_call_order envC ⟨[], [], 0, 0⟩ "/webhook/acct1" "Alice"
    "77001112233" "tok" "acct1"
    (J.obj [("type", J.str "text"), ("text", J.obj [("body", J.str "hello")])])
    (some (J.str "hello")) none [] rfl rfl rfl rfl rfl (Or.inr (by simp))

/-- A concrete environment whose chat-room lookup returns a completed
conversation. -/
def envCCompleted : Env :=
  { envC with aggRow := some ⟨some "room-9", some "chan-9", some "completed", some 7⟩ }

/-- C4: for an inbound supported message whose chat id resolves to an existing
conversation, a `"completed"` status makes the dispatcher call
`activateClosedChatRoom` before `createChatRoomMessage` and never
`createChatRoom`; any other non-null status reuses the conversation with
neither `activateClosedChatRoom` nor `createChatRoom`. -/
theorem inbound_existing_room_routing (env : Env) (db : Db)
    (rawPath pname waid tok ba cr st : String) (row : AggRow) (m mty : J)
    (mt : Option J) (mc : Option (List J)) (fmEvs : List Ev)
    (hagg : env.aggRow = some row)
    (hcr : row.chat_room_id = some cr)
    (hst : row.chat_room_status = some st)
    (htok : env.botToken = some tok)
    (hba : pyRsplitLast rawPath '/' = .ok ba)
    (hty : pyIndex m "type" = .ok mty)
    (hmem : mty ∈ available_types.map J.str)
    (hform : form_message_format env m (some cr) tok = (.ok (mt, mc), fmEvs)) :
    (st = "completed" →
      ((lambda_handler env db rawPath (some (mkInboundBody pname waid m))).2).filter
        Ev.isGqlCall =
        [Ev.gqlActivateClosedChatRoom (some cr) row.client_id mt mc,
         Ev.gqlCreateChatRoomMessage (some cr) row.client_id row.channel_id mt mc,
         Ev.gqlUpdateMessageData (some cr) [env.messageIdResp]]) ∧
    (st ≠ "completed" →
      ((lambda_handler env db rawPath (some (mkInboundBody pname waid m))).2).filter
        Ev.isGqlCall =
        [Ev.gqlCreateChatRoomMessage (some cr) row.client_id row.channel_id mt mc,
         Ev.gqlUpdateMessageData (some cr) [env.messageIdResp]]) := by
  have hfm : fmEvs.filter Ev.isGqlCall = [] := by
    have h := form_message_format_no_gql env m (some cr) tok
    rw [hform] at h
    exact h
  obtain ⟨t, htmem, rfl⟩ := List.mem_map.mp hmem
  have hany : (available_types.any fun u => jEq (J.str t) (J.str u)) = true :=
    List.any_eq_true.mpr ⟨t, htmem, by simp [jEq]⟩
  simp only [pyIndex] at hty
  constructor <;> intro hcase <;>
    simp [lambda_handler, mkInboundBody, pyIndex, pyIndex0, lookupField, checkKeys,
      Bind.bind, Except.bind, pure, Except.pure, hty, hagg, hcr, hst, htok, hba, hany,
      hform, finishMessage, hfm, hcase, Ev.isGqlCall]

/-- Witness for C4 at a concrete completed conversation and text message. -/
theorem inbound_existing_room_routing_witness :
    ("completed" = "completed" →
      ((lambda_handler envCCompleted ⟨[], [], 0, 0⟩ "/webhook/acct1"
        (some (mkInboundBody "Alice" "77001112233"
          (J.obj [("type", J.str "text"),
            ("text", J.obj [("body", J.str "hello")])])))).2).filter Ev.isGqlCall =
        [Ev.gqlActivateClosedChatRoom (some "room-9")
          (AggRow.client_id ⟨some "room-9", some "chan-9", some "completed", some 7⟩)
          (some (J.str "hello")) none,
         Ev.gqlCreateChatRoomMessage (some "room-9")
          (AggRow.client_id ⟨some "room-9", some "chan-9", some "completed", some 7⟩)
          (AggRow.channel_id ⟨some "room-9", some "chan-9", some "completed", some 7⟩)
          (some (J.str "hello")) none,
         Ev.gqlUpdateMessageData (some "room-9") [envCCompleted.messageIdResp]]) ∧
    ("completed" ≠ "completed" →
      ((lambda_handler envCCompleted ⟨[], [], 0, 0⟩ "/webhook/acct1"
        (some (mkInboundBody "Alice" "77001112233"
          (J.obj [("type", J.str "text"),
            ("text", J.obj [("body", J.str "hello")])])))).2).filter Ev.isGqlCall =
        [Ev.gqlCreateChatRoomMessage (some "room-9")
          (AggRow.client_id ⟨some "room-9", some "chan-9", some "completed", some 7⟩)
          (AggRow.channel_id ⟨some "room-9", some "chan-9", some "completed", some 7⟩)
          (some (J.str "hello")) none,
         Ev.gqlUpdateMessageData (some "room-9") [envCCompleted.messageIdResp]]) :=
  inbound_existing_room_routing envCCompleted ⟨[], [], 0, 0⟩ "/webhook/acct1" "Alice"
    "77001112233" "tok" "acct1" "room-9" "completed"
    ⟨some "room-9", some "chan-9", some "completed", some 7⟩
    (J.obj [("type", J.str "text"), ("text", J.obj [("body", J.str "hello")])])
    (J.str "text") (some (J.str "hello")) none []
    rfl rfl rfl rfl rfl rfl (by simp [available_types]) rfl

end SendMessageFromWhatsapp

/-- Witness for C1 at a concrete store and arguments. -/
theorem create_identified_user_idempotent_witness :
    ∃ db1 uid,
      create_identified_user ⟨[], [], 0, 0⟩
        ⟨"+77001112233", J.null, J.str "Alice", "77001112233"⟩ = (db1, .ok uid) ∧
      db1.identified_users.countP
        (fun r => r.whatsapp_username == "77001112233") = 1 ∧
      (create_identified_user db1
        ⟨"+77001112233", J.null, J.str "Alice", "77001112233"⟩).1 = db1 ∧
      (create_identified_user db1
        ⟨"+77001112233", J.null, J.str "Alice", "77001112233"⟩).2 = .error .typeError ∧
      get_identified_user_data db1 "77001112233" = some uid :=
  create_identified_user_idempotent ⟨[], [], 0, 0⟩
    ⟨"+77001112233", J.null, J.str "Alice", "77001112233"⟩
    (by constructor <;> simp)
    (by simp)

/-! ## C8: operator-send input validation -/

namespace SendMessageToWhatsapp

/-- A required identifier argument is missing (or null) or does not parse as a
UUID. -/
def badIdField (input : J) (k : String) : Bool :=
  match pyGet input k with
  | none => true
  | some (J.str s) => !pyUUIDValid s
  | some _ => true

theorem requireUUID_error_of_bad {input : J} {k : String}
    (h : badIdField input k = true) : ∃ e, requireUUID input k = .error e := by
  unfold badIdField at h
  unfold requireUUID
  match hx : pyGet input k with
  | none => exact ⟨_, rfl⟩
  | some (J.str s) =>
    rw [hx] at h
    simp at h
    exact ⟨PyErr.argumentNotUUID k, by simp [h]⟩
  | some J.null => exact ⟨_, rfl⟩
  | some (J.num n) => exact ⟨_, rfl⟩
  | some (J.bool v) => exact ⟨_, rfl⟩
  | some (J.obj fs) => exact ⟨_, rfl⟩
  | some (J.arr xs) => exact ⟨_, rfl⟩

theorem requireUUID_ok_of_good {input : J} {k : String}
    (h : badIdField input k = false) : ∃ s, requireUUID input k = .ok s := by
  unfold badIdField at h
  unfold requireUUID
  match hx : pyGet input k with
  | none => rw [hx] at h; exact absurd h (by simp)
  | some (J.str s) =>
    rw [hx] at h
    simp at h
    exact ⟨s, by simp [h]⟩
  | some J.null => rw [hx] at h; exact absurd h (by simp)
  | some (J.num n) => rw [hx] at h; exact absurd h (by simp)
  | some (J.bool v) => rw [hx] at h; exact absurd h (by simp)
  | some (J.obj fs) => rw [hx] at h; exact absurd h (by simp)
  | some (J.arr xs) => rw [hx] at h; exact absurd h (by simp)

/-- C8: an operator-send request whose required `chatRoomId`,
`messageAuthorId` or `messageChannelId` is missing or does not parse as a
UUID aborts with an error and an empty call trace: no SQL statement, no
GraphQL mutation and no provider call is made. -/
theorem operator_send_rejects_invalid_ids (env : EnvOperator) (b input : J)
    (hin : (pyIndex b "arguments" >>= (pyIndex · "input")) = .ok input)
    (hbad : (badIdField input "chatRoomId" || badIdField input "messageAuthorId" ||
      badIdField input "messageChannelId") = true) :
    (lambda_handler env (some b)).2 = [] ∧
    ∃ e, (lambda_handler env (some b)).1 = .error e := by
  have hchk : ∃ e, check_input_arguments b = .error e := by
    by_cases h1 : badIdField input "chatRoomId" = true
    · obtain ⟨e, he⟩ := requireUUID_error_of_bad h1
      exact ⟨e, by unfold check_input_arguments; rw [hin]; simp [Bind.bind, Except.bind, he]⟩
    · replace h1 : badIdField input "chatRoomId" = false := by simpa using h1
      obtain ⟨s1, hs1⟩ := requireUUID_ok_of_good h1
      by_cases h2 : badIdField input "messageAuthorId" = true
      · obtain ⟨e, he⟩ := requireUUID_error_of_bad h2
        exact ⟨e, by unfold check_input_arguments; rw [hin]; simp [Bind.bind, Except.bind, hs1, he]⟩
      · replace h2 : badIdField input "messageAuthorId" = false := by simpa using h2
        obtain ⟨s2, hs2⟩ := requireUUID_ok_of_good h2
        have h3 : badIdField input "messageChannelId" = true := by
          rw [h1, h2] at hbad
          simpa using hbad
        obtain ⟨e, he⟩ := requireUUID_error_of_bad h3
        exact ⟨e, by
          unfold check_input_arguments
          rw [hin]
          simp [Bind.bind, Except.bind, hs1, hs2, he]⟩
  obtain ⟨e, hchk⟩ := hchk
  constructor <;> simp [lambda_handler, hchk]

/-- Witness for C8: `messageAuthorId` is `"not-a-uuid"`. -/
theorem operator_send_rejects_invalid_ids_witness :
    (lambda_handler ⟨some ("77001112233", "tok"), J.null⟩
      (some (J.obj [("arguments", J.obj [("input", J.obj
        [("chatRoomId", J.str "01234567-89ab-cdef-0123-456789abcdef"),
         ("messageAuthorId", J.str "not-a-uuid"),
         ("messageChannelId", J.str "01234567-89ab-cdef-0123-456789abcdef")])])]))).2
      = [] ∧
    ∃ e, (lambda_handler ⟨some ("77001112233", "tok"), J.null⟩
      (some (J.obj [("arguments", J.obj [("input", J.obj
        [("chatRoomId", J.str "01234567-89ab-cdef-0123-456789abcdef"),
         ("messageAuthorId", J.str "not-a-uuid"),
         ("messageChannelId", J.str "01234567-89ab-cdef-0123-456789abcdef")])])]))).1
      = .error e :=
  operator_send_rejects_invalid_ids ⟨some ("77001112233", "tok"), J.null⟩ _
    (J.obj [("chatRoomId", J.str "01234567-89ab-cdef-0123-456789abcdef"),
            ("messageAuthorId", J.str "not-a-uuid"),
            ("messageChannelId", J.str "01234567-89ab-cdef-0123-456789abcdef")])
    rfl rfl

end SendMessageToWhatsapp

/-! ## C9: the template send can never reach the provider -/

namespace SendTemplateToWhatsapp

/-- C9 (code bug): on a template request that validates and whose chat-room
lookup succeeds, the handler persists the canned message via
`createChatRoomMessage`, but then `send_template_to_whatsapp` raises
`TypeError` while building its request parameters (a set literal containing
the request dict), so the hsm POST to the provider never happens and the
invocation never returns status 200. -/
theorem template_send_never_reaches_provider (env : EnvTemplate) (b : J)
    (args : TemplateArguments) (row : String × String)
    (hchk : check_input_arguments b = .ok args)
    (hrow : env.chatRoomRow = some row) :
    (lambda_handler env (some b)).1 = .error .unhashableType ∧
    (lambda_handler env (some b)).2 =
      [Ev.sqlGetChatRoomData args.chat_room_id,
       Ev.gqlCreateChatRoomMessageTemplate args.chat_room_id args.message_author_id
         args.message_channel_id (some canned_message_text)] := by
  obtain ⟨chatId, token⟩ := row
  constructor <;>
    simp [lambda_handler, hchk, hrow, send_template_to_whatsapp, pySetLiteralOfOne,
      pyHashable]

/-- Witness for C9 at a concrete validated request with a successful chat-room
lookup. -/
theorem template_send_never_reaches_provider_witness :
    (lambda_handler ⟨some ("77001112233", "tok"), J.null⟩
      (some (J.obj [("arguments", J.obj [("input", J.obj
        [("chatRoomId", J.str "01234567-89ab-cdef-0123-456789abcdef")])])]))).1
      = .error .unhashableType ∧
    (lambda_handler ⟨some ("77001112233", "tok"), J.null⟩
      (some (J.obj [("arguments", J.obj [("input", J.obj
        [("chatRoomId", J.str "01234567-89ab-cdef-0123-456789abcdef")])])]))).2
      = [Ev.sqlGetChatRoomData (some (J.str "01234567-89ab-cdef-0123-456789abcdef")),
         Ev.gqlCreateChatRoomMessageTemplate
           (some (J.str "01234567-89ab-cdef-0123-456789abcdef")) none none
           (some canned_message_text)] :=
  template_send_never_reaches_provider ⟨some ("77001112233", "tok"), J.null⟩ _
    ⟨some (J.str "01234567-89ab-cdef-0123-456789abcdef"), none, none, none⟩
    ("77001112233", "tok") rfl rfl

end SendTemplateToWhatsapp

end S3bWhatsappBot
